import Mathlib

/-!
Verification of the Treasury chunked-transfer engine (Rust backend) against its
natural-language specification.  The definitions below are a shallow embedding of
the relevant source files:

  * `src/backend/src/constants.rs`                 — the numeric constants;
  * `src/backend/src/api/formats.rs`               — chunk-count / container-size arithmetic;
  * `src/backend/src/api/utils/upload_utils.rs`    — `ActiveUpload`, `write_buffered_chunks`,
    `try_write_chunk`, `UploadsManager::finalise_upload` (the generation wired into
    `AppState` via `app_state.rs` and `main.rs`);
  * `src/backend/src/api/api_utils/upload_utils.rs` — the older `finalise_upload` that
    checks the byte count (after renaming);
  * `src/backend/src/api/uploads.rs`               — the routed handler `upload_chunk_api`
    and its inline drain loop;
  * `src/backend/src/api/utils/download_utils.rs`  — `try_read_chunk_as_stream`.

Machine integers (`u64`, `i64`) are modelled as `Nat` / `Int`; byte vectors
(`Vec<u8>`) as `List Nat`; the `BTreeMap<i64, Vec<u8>>` of buffered chunks as an
association list kept sorted in strictly ascending key order (the order in which
`iter_mut` visits entries); the bytes pushed through a `BufWriter<File>` as a
`List Nat` accumulated in the session state.  Filesystem operations (create,
write, rename) are modelled as succeeding; where a claim turns on their success
or failure this is noted at the claim.
-/

namespace Treasury

/-! ## Constants (`src/backend/src/constants.rs`) -/

/-- Bytes of `ENCRYPTED_FILE_MAGIC_NUMBER` (constants.rs line 34). -/
def ENCRYPTED_FILE_MAGIC_NUMBER : List Nat := [0x2E, 0x54, 0x45, 0x46]

/-- Bytes of `CHUNK_MAGIC_NUMBER` (constants.rs line 36). -/
def CHUNK_MAGIC_NUMBER : List Nat := [0x43, 0x48, 0x4E, 0x4B]

def ENCRYPTED_FILE_HEADER_SIZE : Nat := ENCRYPTED_FILE_MAGIC_NUMBER.length

def CHUNK_ID_BYTE_SIZE : Nat := 4

def NONCE_BYTE_SIZE : Nat := 24

def POLY1305_TAG_BYTE_SIZE : Nat := 16

/-- `CHUNK_DATA_SIZE = 2 MiB` (constants.rs line 38). -/
def CHUNK_DATA_SIZE : Nat := 2 * 1024 * 1024

/-- `ENCRYPTED_CHUNK_EXTRA_DATA_SIZE = CHUNK_ID_BYTE_SIZE + NONCE_BYTE_SIZE +
POLY1305_TAG_BYTE_SIZE` (= 44), the per-chunk overhead. -/
def ENCRYPTED_CHUNK_EXTRA_DATA_SIZE : Nat :=
  CHUNK_ID_BYTE_SIZE + NONCE_BYTE_SIZE + POLY1305_TAG_BYTE_SIZE

/-- `ENCRYPTED_CHUNK_SIZE = CHUNK_DATA_SIZE + ENCRYPTED_CHUNK_EXTRA_DATA_SIZE`,
the on-wire size of a full chunk. -/
def ENCRYPTED_CHUNK_SIZE : Nat := CHUNK_DATA_SIZE + ENCRYPTED_CHUNK_EXTRA_DATA_SIZE

def MAX_UPLOAD_CONCURRENT_CHUNKS : Nat := 4

/-! ## Chunk format arithmetic (`src/backend/src/api/formats.rs`)

These functions operate on `u64` in the source.  All intermediate values stay
far below `2 ^ 64` for any input below `2 ^ 63`, and file sizes are capped by
`MAX_FILE_SIZE = 1 TiB` at the API layer, so plain `Nat` arithmetic coincides
with the machine arithmetic on the reachable domain; `calc_raw_chunk_size`
carries the documented precondition `encrypted_chunk_size ≥ 44` under which
`Nat` subtraction coincides with `u64` subtraction. -/

/-- formats.rs lines 3-12: division with remainder, rounding up. -/
def calc_file_chunk_count (raw_file_size : Nat) : Nat :=
  let quotient := raw_file_size / CHUNK_DATA_SIZE
  let remainder := raw_file_size % CHUNK_DATA_SIZE
  if remainder = 0 then quotient else quotient + 1

/-- formats.rs lines 14-20. -/
def calc_encrypted_file_size (raw_file_size : Nat) : Nat :=
  let chunk_count := calc_file_chunk_count raw_file_size
  let header_size := ENCRYPTED_FILE_HEADER_SIZE
  let overhead := header_size + chunk_count * ENCRYPTED_CHUNK_EXTRA_DATA_SIZE
  overhead + raw_file_size

/-- formats.rs lines 22-25.  The source documents the precondition
`encrypted_chunk_size ≥ ENCRYPTED_CHUNK_EXTRA_DATA_SIZE`. -/
def calc_raw_chunk_size (encrypted_chunk_size : Nat) : Nat :=
  encrypted_chunk_size - ENCRYPTED_CHUNK_EXTRA_DATA_SIZE

/-! ## Upload sessions

`ActiveUpload` carries the fields shared by the three generations of the upload
code (`uploads.rs`, `api_utils/upload_utils.rs`, `utils/upload_utils.rs`):
an owning user id, the declared plaintext size, the running count of raw bytes
written, the id of the previously written chunk (`i64`, initialised to `-1`),
and the `BTreeMap` of buffered out-of-order chunks.  The extra field `file`
models the bytes pushed into the destination `BufWriter<File>`. -/

structure ActiveUpload where
  user_id : Nat
  file_size : Nat
  written_bytes : Nat
  prev_written_chunk_id : Int
  buffered_chunks : List (Int × List Nat)
  file : List Nat
  deriving Repr, DecidableEq

/-- Insertion into the sorted association list modelling
`BTreeMap<i64, Vec<u8>>::insert` (replaces the value on an existing key). -/
def btreeInsert (k : Int) (v : List Nat) : List (Int × List Nat) → List (Int × List Nat)
  | [] => [(k, v)]
  | (k1, v1) :: rest =>
    if k < k1 then (k, v) :: (k1, v1) :: rest
    else if k = k1 then (k, v) :: rest
    else (k1, v1) :: btreeInsert k v rest

/-- `BTreeMap::contains_key`. -/
def btreeContains (k : Int) : List (Int × List Nat) → Bool
  | [] => false
  | (k1, _) :: rest => k = k1 || btreeContains k rest

/-- `BTreeMap::remove` (drops the entry with the given key, if any). -/
def btreeRemove (k : Int) (m : List (Int × List Nat)) : List (Int × List Nat) :=
  m.filter (fun p => p.1 ≠ k)

/-- The `for id in written_chunk_ids` removal loop shared by all three
generations of the drain code. -/
def removeWritten (ids : List Int) (m : List (Int × List Nat)) : List (Int × List Nat) :=
  ids.foldl (fun acc i => btreeRemove i acc) m

/-- The expected encrypted size of the chunk at the next write position,
`cmp::min(bytes_left_to_write + ENCRYPTED_CHUNK_EXTRA_DATA_SIZE as i64,
ENCRYPTED_CHUNK_SIZE as i64)` with
`bytes_left_to_write = file_size as i64 - written_bytes as i64`
(identical in utils/upload_utils.rs lines 60-65, api_utils lines 46-51 and
uploads.rs lines 338-343). -/
def expected_enc_chunk_size (file_size written_bytes : Nat) : Int :=
  min ((file_size : Int) - (written_bytes : Int) + (ENCRYPTED_CHUNK_EXTRA_DATA_SIZE : Int))
    (ENCRYPTED_CHUNK_SIZE : Int)

/-- The structured content of the size-mismatch error string produced by the
drain loops. -/
inductive ChunkWriteError where
  | sizeMismatch (expected got : Int)
  deriving Repr, DecidableEq

namespace UploadUtils

/-! ### `src/backend/src/api/utils/upload_utils.rs` (wired into `AppState`) -/

/-- The `for (chunk_id, chunk) in self.buffered_chunks.iter_mut()` loop of
`ActiveUpload::write_buffered_chunks` (lines 53-94): iterates the buffered
chunks in ascending key order, threading `written_bytes`,
`prev_written_chunk_id`, the writer contents and the `written_chunk_ids`
vector.  Returns the error (if any) together with the final accumulator. -/
def writeLoop (file_size : Nat) :
    List (Int × List Nat) → Nat → Int → List Nat → List Int →
    Option ChunkWriteError × Nat × Int × List Nat × List Int
  | [], written, prev, f, ids => (none, written, prev, f, ids)
  | (chunk_id, chunk) :: rest, written, prev, f, ids =>
    let enc_chunk_size := chunk.length
    let raw_chunk_size := calc_raw_chunk_size enc_chunk_size
    let expected := expected_enc_chunk_size file_size written
    if (enc_chunk_size : Int) ≠ expected then
      (some (ChunkWriteError.sizeMismatch expected enc_chunk_size), written, prev, f, ids)
    else if chunk_id - prev = 1 then
      writeLoop file_size rest (written + raw_chunk_size) chunk_id (f ++ chunk)
        (ids ++ [chunk_id])
    else
      (none, written, prev, f, ids)

/-- `ActiveUpload::write_buffered_chunks` (lines 49-102).  On the size-mismatch
error the `?` return skips the removal loop, so chunks already written in this
call remain in `buffered_chunks`; on `Ok` the written ids are removed. -/
def write_buffered_chunks (u : ActiveUpload) :
    Option ChunkWriteError × ActiveUpload :=
  match writeLoop u.file_size u.buffered_chunks u.written_bytes
      u.prev_written_chunk_id u.file [] with
  | (some e, written, prev, f, _) =>
    (some e, { u with written_bytes := written, prev_written_chunk_id := prev, file := f })
  | (none, written, prev, f, ids) =>
    (none, { u with written_bytes := written, prev_written_chunk_id := prev, file := f,
                    buffered_chunks := removeWritten ids u.buffered_chunks })

/-- `ActiveUpload::try_write_chunk` (lines 104-112): insert the new chunk into
the buffer, then flush as many buffered chunks as possible. -/
def try_write_chunk (u : ActiveUpload) (new_chunk_id : Int) (data : List Nat) :
    Option ChunkWriteError × ActiveUpload :=
  write_buffered_chunks
    { u with buffered_chunks := btreeInsert new_chunk_id data u.buffered_chunks }

/-- The session state after a chunk-accept call; the Rust handler keeps the
mutated session in the map whether or not the call reported an error. -/
def chunkStep (u : ActiveUpload) (cid : Int) (data : List Nat) : ActiveUpload :=
  (try_write_chunk u cid data).2

/-- Delivering a list of `(chunk id, payload)` pairs one call at a time. -/
def deliver (u : ActiveUpload) (chunks : List (Int × List Nat)) : ActiveUpload :=
  chunks.foldl (fun st p => chunkStep st p.1 p.2) u

/-- The session created by `UploadsManager::new_upload` (lines 133-150):
fresh counters, `prev_written_chunk_id` as used by the drain starting at the
sentinel `-1`, and the 4-byte container magic header written immediately. -/
def newUpload (user_id file_size : Nat) : ActiveUpload :=
  { user_id := user_id, file_size := file_size, written_bytes := 0,
    prev_written_chunk_id := -1, buffered_chunks := [],
    file := ENCRYPTED_FILE_MAGIC_NUMBER }

end UploadUtils

namespace UploadsApi

/-! ### `src/backend/src/api/uploads.rs` — the handler wired into the router
(`main.rs` line 112 routes `/api/uploads/chunks` to `upload_chunk_api`).

Its `ActiveUploadsDatabase::new_upload` (lines 100-112) does not write the
container magic header, so a fresh session starts with an empty file. -/

/-- The session created by `ActiveUploadsDatabase::new_upload` +
`ActiveUpload::new` (uploads.rs lines 72-83): no header bytes are written. -/
def newUpload (user_id file_size : Nat) : ActiveUpload :=
  { user_id := user_id, file_size := file_size, written_bytes := 0,
    prev_written_chunk_id := -1, buffered_chunks := [], file := [] }

/-- Response of `upload_chunk_api` after the multipart/handle validations. -/
inductive UploadChunkResponse where
  | badRequestDuplicateChunk
  | tooManyConcurrentChunks
  | badRequestChunkSize (expected got : Int)
  | ok
  deriving Repr, DecidableEq

/-- The `for (id, chunk) in active_upload.buffered_chunks.iter_mut()` drain loop
of `upload_chunk_api` (uploads.rs lines 333-383).  Faithful to the source:

  * the write condition at line 358 compares the request argument `chunk_id`
    (`argId` here) against `prev_written_chunk_id`, not the iterated key `id`,
    and writes on the `!= 1` branch (while its comment says a chunk is written
    when it is supposed to come next);
  * each write emits `CHUNK_MAGIC_NUMBER` followed by the chunk bytes
    (lines 364-372);
  * line 359 sets `prev_written_chunk_id = chunk_id` and line 376 pushes that
    value into `written_chunk_ids`;
  * the early `return` on the `else` branch (line 381) and on the size error
    (line 351) skip the removal loop, reported by the `Bool` component. -/
def drainLoop (argId : Int) (file_size : Nat) :
    List (Int × List Nat) → Nat → Int → List Nat → List Int →
    UploadChunkResponse × Bool × Nat × Int × List Nat × List Int
  | [], written, prev, f, ids => (UploadChunkResponse.ok, true, written, prev, f, ids)
  | (_, chunk) :: rest, written, prev, f, ids =>
    let enc_chunk_size := chunk.length
    let raw_chunk_size := calc_raw_chunk_size enc_chunk_size
    let expected := expected_enc_chunk_size file_size written
    if (enc_chunk_size : Int) ≠ expected then
      (UploadChunkResponse.badRequestChunkSize expected enc_chunk_size, false,
        written, prev, f, ids)
    else if argId - prev ≠ 1 then
      drainLoop argId file_size rest (written + raw_chunk_size) argId
        (f ++ CHUNK_MAGIC_NUMBER ++ chunk) (ids ++ [argId])
    else
      (UploadChunkResponse.ok, false, written, prev, f, ids)

/-- `upload_chunk_api` (uploads.rs lines 275-391) from the point where the
session has been looked up: the duplicate-id check (line 318), the concurrency
bound (line 323), the insertion (line 328), the drain loop and the removal of
the written ids (lines 386-388). -/
def upload_chunk_api (u : ActiveUpload) (chunk_id : Int) (data : List Nat) :
    UploadChunkResponse × ActiveUpload :=
  if btreeContains chunk_id u.buffered_chunks then
    (UploadChunkResponse.badRequestDuplicateChunk, u)
  else if MAX_UPLOAD_CONCURRENT_CHUNKS ≤ u.buffered_chunks.length then
    (UploadChunkResponse.tooManyConcurrentChunks, u)
  else
    let m := btreeInsert chunk_id data u.buffered_chunks
    match drainLoop chunk_id u.file_size m u.written_bytes
        u.prev_written_chunk_id u.file [] with
    | (resp, finished, written, prev, f, ids) =>
      (resp, { u with written_bytes := written, prev_written_chunk_id := prev, file := f,
                      buffered_chunks := if finished then removeWritten ids m else m })

end UploadsApi

/-! ## Finalisation -/

/-- Structured content of the errors returned by the two `finalise_upload`
generations. -/
inductive FinaliseError where
  | unknownHandle
  | bufferedChunksRemain
  | incompleteBytes (bytes_left : Int)
  deriving Repr, DecidableEq

/-- Outcome of a finalise call: the error (if any), the registry afterwards,
and whether the temporary file was renamed into the user files directory. -/
structure FinaliseOutcome where
  error : Option FinaliseError
  map : List (String × ActiveUpload)
  renamed : Bool
  deriving Repr, DecidableEq

/-- Registry lookup (`active_uploads_map` keyed by the handle string). -/
def lookupHandle (m : List (String × ActiveUpload)) (h : String) : Option ActiveUpload :=
  match m with
  | [] => none
  | (k, u) :: rest => if k = h then some u else lookupHandle rest h

/-- Removal from the registry (`active_uploads_map.remove(handle)`). -/
def removeHandle (h : String) (m : List (String × ActiveUpload)) :
    List (String × ActiveUpload) :=
  m.filter (fun p => p.1 ≠ h)

namespace UploadUtils

/-- `UploadsManager::finalise_upload` of utils/upload_utils.rs (lines 155-192):
checks the handle, removes the session from the map, fails if buffered chunks
remain, otherwise shuts the writer down and renames the temporary file.  There
is no written-bytes check; the rename is modelled as succeeding. -/
def finalise_upload (m : List (String × ActiveUpload)) (handle : String) :
    FinaliseOutcome :=
  match lookupHandle m handle with
  | none => { error := some FinaliseError.unknownHandle, map := m, renamed := false }
  | some u =>
    let m1 := removeHandle handle m
    if u.buffered_chunks ≠ [] then
      { error := some FinaliseError.bufferedChunksRemain, map := m1, renamed := false }
    else
      { error := none, map := m1, renamed := true }

end UploadUtils

namespace ApiUtilsUpload

/-- `UploadsManager::finalise_upload` of api_utils/upload_utils.rs
(lines 138-178): checks the handle, removes the session, shuts the writer down,
renames the temporary file into the user files directory, and only afterwards
(lines 167-175) fails when `written_bytes != file_size`, reporting
`file_size as i64 - written_bytes as i64` bytes left.  The rename is modelled
as succeeding. -/
def finalise_upload (m : List (String × ActiveUpload)) (handle : String) :
    FinaliseOutcome :=
  match lookupHandle m handle with
  | none => { error := some FinaliseError.unknownHandle, map := m, renamed := false }
  | some u =>
    let m1 := removeHandle handle m
    if u.written_bytes ≠ u.file_size then
      { error := some (FinaliseError.incompleteBytes
          ((u.file_size : Int) - (u.written_bytes : Int))),
        map := m1, renamed := true }
    else
      { error := none, map := m1, renamed := true }

end ApiUtilsUpload

namespace DownloadUtils

/-! ### `src/backend/src/api/utils/download_utils.rs` -/

/-- Observable outcome of `DownloadsManager::try_read_chunk_as_stream`
(lines 138-173) for a download session whose cached size is `file_size`.
The source computes

  `read_offset = chunk_id * ENCRYPTED_CHUNK_SIZE + ENCRYPTED_FILE_HEADER_SIZE`
  `read_size   = min(ENCRYPTED_CHUNK_SIZE, file_size - read_offset)`

in `u64` and only then validates `read_offset > file_size`.  When the offset
exceeds the file size, the subtraction `file_size - read_offset` underflows:
with overflow checks enabled (the default debug profile) the call panics before
the validation; in release builds it wraps modulo `2 ^ 64`, the wrapped value is
unused, and the validation returns the out-of-range error. -/
inductive ReadChunkOutcome where
  | panicOnUnderflow
  | chunkOutOfRange
  | stream (offset size : Nat)
  deriving Repr, DecidableEq

/-- `try_read_chunk_as_stream`, parametrised by whether integer overflow checks
are enabled (`u64` offsets are taken modulo `2 ^ 64` as in release builds). -/
def try_read_chunk_as_stream (overflowChecks : Bool) (file_size chunk_id : Nat) :
    ReadChunkOutcome :=
  let read_offset := (chunk_id * ENCRYPTED_CHUNK_SIZE + ENCRYPTED_FILE_HEADER_SIZE) % 2 ^ 64
  if overflowChecks ∧ file_size < read_offset then
    ReadChunkOutcome.panicOnUnderflow
  else if read_offset > file_size then
    ReadChunkOutcome.chunkOutOfRange
  else
    ReadChunkOutcome.stream read_offset (min ENCRYPTED_CHUNK_SIZE (file_size - read_offset))

end DownloadUtils

end Treasury

namespace Treasury

/-! ## Shared concrete payloads and helper lemmas -/

/-- A full-size encrypted chunk payload (2097196 bytes). -/
def fullChunk : List Nat := List.replicate ENCRYPTED_CHUNK_SIZE 0

/-- The encrypted payload of a final chunk holding a single raw byte
(1 + 44 = 45 bytes). -/
def shortChunk : List Nat := List.replicate 45 1

theorem fullChunk_length : fullChunk.length = ENCRYPTED_CHUNK_SIZE :=
  List.length_replicate _ _

theorem shortChunk_length : shortChunk.length = 45 :=
  List.length_replicate _ _

/-- After `removeHandle h`, the handle `h` is no longer in the registry. -/
theorem lookup_removeHandle (m : List (String × ActiveUpload)) (h : String) :
    lookupHandle (removeHandle h m) h = none := by
  induction m with
  | nil => rfl
  | cons p rest ih =>
    by_cases hp : p.1 = h
    · simpa [removeHandle, List.filter, hp] using ih
    · simpa [removeHandle, List.filter, hp, lookupHandle] using ih

theorem btreeInsert_nil (k : Int) (v : List Nat) : btreeInsert k v [] = [(k, v)] := rfl

/-! ### Step lemmas for the utils drain loop

One lemma per branch of the `for` loop body of `write_buffered_chunks`,
used to evaluate concrete runs without unfolding the loop inside a goal. -/

theorem writeLoop_nil (fs : Nat) (w : Nat) (p : Int) (f : List Nat) (ids : List Int) :
    UploadUtils.writeLoop fs [] w p f ids = (none, w, p, f, ids) := rfl

theorem writeLoop_write (fs : Nat) (cid : Int) (chunk : List Nat)
    (rest : List (Int × List Nat)) (w : Nat) (p : Int) (f : List Nat) (ids : List Int)
    (hsz : (chunk.length : Int) = expected_enc_chunk_size fs w) (hid : cid - p = 1) :
    UploadUtils.writeLoop fs ((cid, chunk) :: rest) w p f ids =
      UploadUtils.writeLoop fs rest (w + calc_raw_chunk_size chunk.length) cid
        (f ++ chunk) (ids ++ [cid]) := by
  simp [UploadUtils.writeLoop, hsz, hid]

theorem writeLoop_break (fs : Nat) (cid : Int) (chunk : List Nat)
    (rest : List (Int × List Nat)) (w : Nat) (p : Int) (f : List Nat) (ids : List Int)
    (hsz : (chunk.length : Int) = expected_enc_chunk_size fs w) (hid : cid - p ≠ 1) :
    UploadUtils.writeLoop fs ((cid, chunk) :: rest) w p f ids = (none, w, p, f, ids) := by
  simp [UploadUtils.writeLoop, hsz, hid]

theorem writeLoop_mismatch (fs : Nat) (cid : Int) (chunk : List Nat)
    (rest : List (Int × List Nat)) (w : Nat) (p : Int) (f : List Nat) (ids : List Int)
    (hsz : (chunk.length : Int) ≠ expected_enc_chunk_size fs w) :
    UploadUtils.writeLoop fs ((cid, chunk) :: rest) w p f ids =
      (some (ChunkWriteError.sizeMismatch (expected_enc_chunk_size fs w) chunk.length),
        w, p, f, ids) := by
  simp [UploadUtils.writeLoop, hsz]

theorem write_buffered_chunks_ok (u : ActiveUpload) (w : Nat) (p : Int)
    (f : List Nat) (ids : List Int)
    (h : UploadUtils.writeLoop u.file_size u.buffered_chunks u.written_bytes
        u.prev_written_chunk_id u.file [] = (none, w, p, f, ids)) :
    UploadUtils.write_buffered_chunks u =
      (none, { u with written_bytes := w, prev_written_chunk_id := p, file := f,
                      buffered_chunks := removeWritten ids u.buffered_chunks }) := by
  unfold UploadUtils.write_buffered_chunks
  rw [h]

theorem write_buffered_chunks_err (u : ActiveUpload) (e : ChunkWriteError) (w : Nat)
    (p : Int) (f : List Nat) (ids : List Int)
    (h : UploadUtils.writeLoop u.file_size u.buffered_chunks u.written_bytes
        u.prev_written_chunk_id u.file [] = (some e, w, p, f, ids)) :
    UploadUtils.write_buffered_chunks u =
      (some e, { u with written_bytes := w, prev_written_chunk_id := p, file := f }) := by
  unfold UploadUtils.write_buffered_chunks
  rw [h]

theorem try_write_chunk_eq (u : ActiveUpload) (cid : Int) (data : List Nat) :
    UploadUtils.try_write_chunk u cid data =
      UploadUtils.write_buffered_chunks
        { u with buffered_chunks := btreeInsert cid data u.buffered_chunks } := rfl

theorem deliver_nil (u : ActiveUpload) : UploadUtils.deliver u [] = u := rfl

theorem deliver_cons (u : ActiveUpload) (cid : Int) (data : List Nat)
    (rest : List (Int × List Nat)) :
    UploadUtils.deliver u ((cid, data) :: rest) =
      UploadUtils.deliver (UploadUtils.try_write_chunk u cid data).2 rest := rfl

/-! ### Whole-call lemmas for a session whose buffer holds at most the new
chunk: the three ways a single `try_write_chunk` call can go. -/

/-- The new chunk is the only buffered one, has the expected size and is the
next in sequence: it is written and drained from the buffer. -/
theorem try_write_single_write (u : ActiveUpload) (cid : Int) (data : List Nat)
    (hbuf : u.buffered_chunks = [])
    (hsz : (data.length : Int) = expected_enc_chunk_size u.file_size u.written_bytes)
    (hid : cid - u.prev_written_chunk_id = 1) :
    UploadUtils.try_write_chunk u cid data =
      (none, { u with written_bytes := u.written_bytes + calc_raw_chunk_size data.length,
                      prev_written_chunk_id := cid, file := u.file ++ data,
                      buffered_chunks := [] }) := by
  rw [try_write_chunk_eq, hbuf, btreeInsert_nil]
  have hloop : UploadUtils.writeLoop u.file_size [(cid, data)] u.written_bytes
      u.prev_written_chunk_id u.file [] =
      (none, u.written_bytes + calc_raw_chunk_size data.length, cid,
        u.file ++ data, [] ++ [cid]) := by
    rw [writeLoop_write u.file_size cid data [] u.written_bytes
      u.prev_written_chunk_id u.file [] hsz hid]
    exact writeLoop_nil u.file_size (u.written_bytes + calc_raw_chunk_size data.length)
      cid (u.file ++ data) ([] ++ [cid])
  rw [write_buffered_chunks_ok ({ u with buffered_chunks := [(cid, data)] })
    (u.written_bytes + calc_raw_chunk_size data.length) cid (u.file ++ data)
    ([] ++ [cid]) hloop]
  simp [removeWritten, btreeRemove]

/-- The new chunk is the only buffered one and has the expected size, but is
not the next in sequence: the call succeeds leaving it buffered. -/
theorem try_write_single_break (u : ActiveUpload) (cid : Int) (data : List Nat)
    (hbuf : u.buffered_chunks = [])
    (hsz : (data.length : Int) = expected_enc_chunk_size u.file_size u.written_bytes)
    (hid : cid - u.prev_written_chunk_id ≠ 1) :
    UploadUtils.try_write_chunk u cid data =
      (none, { u with buffered_chunks := [(cid, data)] }) := by
  rw [try_write_chunk_eq, hbuf, btreeInsert_nil]
  rw [write_buffered_chunks_ok ({ u with buffered_chunks := [(cid, data)] })
    u.written_bytes u.prev_written_chunk_id u.file []
    (writeLoop_break u.file_size cid data [] u.written_bytes
      u.prev_written_chunk_id u.file [] hsz hid)]
  rfl

/-- The new chunk is the only buffered one and its size differs from the size
expected at the next write position: the call fails, leaving it buffered. -/
theorem try_write_single_mismatch (u : ActiveUpload) (cid : Int) (data : List Nat)
    (hbuf : u.buffered_chunks = [])
    (hsz : (data.length : Int) ≠ expected_enc_chunk_size u.file_size u.written_bytes) :
    UploadUtils.try_write_chunk u cid data =
      (some (ChunkWriteError.sizeMismatch
          (expected_enc_chunk_size u.file_size u.written_bytes) data.length),
        { u with buffered_chunks := [(cid, data)] }) := by
  rw [try_write_chunk_eq, hbuf, btreeInsert_nil]
  rw [write_buffered_chunks_err ({ u with buffered_chunks := [(cid, data)] })
    (ChunkWriteError.sizeMismatch
      (expected_enc_chunk_size u.file_size u.written_bytes) data.length)
    u.written_bytes u.prev_written_chunk_id u.file []
    (writeLoop_mismatch u.file_size cid data [] u.written_bytes
      u.prev_written_chunk_id u.file [] hsz)]

/-! ## Claims about the chunk format arithmetic -/

/-- C9: for every `raw_size`, `calc_file_chunk_count raw_size` is the ceiling of
`raw_size / CHUNK_DATA_SIZE`, and the overhead
`calc_encrypted_file_size raw_size - raw_size` is exactly
`CONTAINER_HEADER_SIZE + chunk_count * CHUNK_OVERHEAD` with header size 4 and
per-chunk overhead 44, in exact unsigned-integer arithmetic. -/
theorem chunk_format_overhead_exact (raw_size : Nat) :
    calc_file_chunk_count raw_size = (raw_size + CHUNK_DATA_SIZE - 1) / CHUNK_DATA_SIZE ∧
    calc_encrypted_file_size raw_size - raw_size =
      4 + calc_file_chunk_count raw_size * 44 := by
  constructor
  · simp only [calc_file_chunk_count, CHUNK_DATA_SIZE]
    split <;> omega
  · simp only [calc_encrypted_file_size, calc_file_chunk_count,
      ENCRYPTED_FILE_HEADER_SIZE, ENCRYPTED_FILE_MAGIC_NUMBER,
      ENCRYPTED_CHUNK_EXTRA_DATA_SIZE, CHUNK_ID_BYTE_SIZE, NONCE_BYTE_SIZE,
      POLY1305_TAG_BYTE_SIZE, CHUNK_DATA_SIZE, List.length]
    split <;> omega

/-- C10: a raw size of exactly 0 yields 0 chunks, and the encrypted container of
an empty file is the bare 4-byte magic header. -/
theorem empty_file_zero_chunks :
    calc_file_chunk_count 0 = 0 ∧ calc_encrypted_file_size 0 = 4 := by
  constructor <;> decide

/-! ## Claims about finalisation (C2, C6) -/

/-- An upload session that has written nothing of its declared 1-byte file and
has an empty pending buffer. -/
def incompleteSession : ActiveUpload :=
  { user_id := 0, file_size := 1, written_bytes := 0, prev_written_chunk_id := -1,
    buffered_chunks := [], file := ENCRYPTED_FILE_MAGIC_NUMBER }

/-- C2 (code bug): finalising a session with `written_bytes < declared_size` and
an empty pending buffer does not fail before renaming.  The current generation
(utils/upload_utils.rs) has no byte-count check at all: the call succeeds and
renames the incomplete temporary file into permanent storage.  The older
generation (api_utils/upload_utils.rs) does fail, reporting
`declared_size - written_bytes = 1` bytes left, but only after the rename has
already happened — so a failing finalize has renamed the file. -/
theorem finalise_incomplete_upload_renames :
    UploadUtils.finalise_upload [("h", incompleteSession)] "h" =
      { error := none, map := [], renamed := true } ∧
    ApiUtilsUpload.finalise_upload [("h", incompleteSession)] "h" =
      { error := some (FinaliseError.incompleteBytes 1), map := [], renamed := true } := by
  constructor <;> decide

/-- C6 counterexample: finalising a session that still holds a buffered chunk
fails the validation, yet the session has already been removed from the
registry — the registry is empty afterwards, so the upload is not continuable. -/
def bufferedSession : ActiveUpload :=
  { user_id := 0, file_size := 2097152, written_bytes := 0, prev_written_chunk_id := -1,
    buffered_chunks := [(1, [7])], file := ENCRYPTED_FILE_MAGIC_NUMBER }

theorem failed_finalise_empties_registry :
    UploadUtils.finalise_upload [("h", bufferedSession)] "h" =
      { error := some FinaliseError.bufferedChunksRemain, map := [], renamed := false } := by
  decide

/-- C6 amended: a finalize that fails validation (buffered chunks remain) has
already removed the session from the registry; afterwards the handle no longer
resolves, so the client can neither continue uploading chunks nor retry
finalize (a retry fails with the unknown-handle error). -/
theorem finalise_validation_error_removes_session
    (m : List (String × ActiveUpload)) (h : String) (u : ActiveUpload)
    (hlook : lookupHandle m h = some u) (hbuf : u.buffered_chunks ≠ []) :
    UploadUtils.finalise_upload m h =
      { error := some FinaliseError.bufferedChunksRemain,
        map := removeHandle h m, renamed := false } ∧
    lookupHandle (UploadUtils.finalise_upload m h).map h = none ∧
    (UploadUtils.finalise_upload (UploadUtils.finalise_upload m h).map h).error =
      some FinaliseError.unknownHandle := by
  have hfin : UploadUtils.finalise_upload m h =
      { error := some FinaliseError.bufferedChunksRemain,
        map := removeHandle h m, renamed := false } := by
    simp [UploadUtils.finalise_upload, hlook, hbuf]
  refine ⟨hfin, ?_, ?_⟩
  · rw [hfin]
    exact lookup_removeHandle m h
  · rw [hfin]
    simp [UploadUtils.finalise_upload, lookup_removeHandle]

theorem finalise_validation_error_removes_session_witness :
    lookupHandle [("h", bufferedSession)] "h" = some bufferedSession ∧
    bufferedSession.buffered_chunks ≠ [] ∧
    UploadUtils.finalise_upload [("h", bufferedSession)] "h" =
      { error := some FinaliseError.bufferedChunksRemain,
        map := removeHandle "h" [("h", bufferedSession)], renamed := false } :=
  ⟨by decide, by decide,
    (finalise_validation_error_removes_session [("h", bufferedSession)] "h"
      bufferedSession (by decide) (by decide)).1⟩

/-! ## Claims about the chunk-accept guards (C7) -/

/-- An upload session whose pending buffer already holds
`MAX_UPLOAD_CONCURRENT_CHUNKS = 4` chunks, none of which is writable
(`prev_written_chunk_id = -1`, so the next expected id is 0). -/
def fullBufferSession : ActiveUpload :=
  { user_id := 0, file_size := 12582912, written_bytes := 0, prev_written_chunk_id := -1,
    buffered_chunks := [(1, [7]), (2, [7]), (3, [7]), (4, [7])], file := [] }

/-- C7 counterexample: with the pending buffer at the configured bound and a new
chunk that cannot be written immediately (id 1 while the next expected id is 0),
the call is rejected as a duplicate, not with the backpressure error — the
duplicate-id check at uploads.rs line 318 runs before the concurrency bound at
line 323. -/
theorem full_buffer_duplicate_not_backpressure :
    UploadsApi.upload_chunk_api fullBufferSession 1 [9] =
      (UploadsApi.UploadChunkResponse.badRequestDuplicateChunk, fullBufferSession) ∧
    (UploadsApi.upload_chunk_api fullBufferSession 1 [9]).1 ≠
      UploadsApi.UploadChunkResponse.tooManyConcurrentChunks := by
  constructor <;> decide

/-- C7 amended: a chunk arriving while the pending buffer holds the configured
maximum is rejected with the backpressure error and no session state is
mutated, provided its chunk id is not already pending (a pending id is rejected
as a duplicate by the earlier check). -/
theorem backpressure_rejects_without_mutation
    (u : ActiveUpload) (chunk_id : Int) (data : List Nat)
    (hdup : btreeContains chunk_id u.buffered_chunks = false)
    (hfull : MAX_UPLOAD_CONCURRENT_CHUNKS ≤ u.buffered_chunks.length) :
    UploadsApi.upload_chunk_api u chunk_id data =
      (UploadsApi.UploadChunkResponse.tooManyConcurrentChunks, u) := by
  simp [UploadsApi.upload_chunk_api, hdup, hfull]

theorem backpressure_rejects_without_mutation_witness :
    btreeContains 5 fullBufferSession.buffered_chunks = false ∧
    MAX_UPLOAD_CONCURRENT_CHUNKS ≤ fullBufferSession.buffered_chunks.length ∧
    UploadsApi.upload_chunk_api fullBufferSession 5 [9] =
      (UploadsApi.UploadChunkResponse.tooManyConcurrentChunks, fullBufferSession) :=
  ⟨by decide, by decide,
    backpressure_rejects_without_mutation fullBufferSession 5 [9] (by decide) (by decide)⟩

/-! ## Claims about the chunk-accept path (C1, C4, C5) -/

/-- C1 (code bug): in the routed handler `upload_chunk_api`, a chunk whose
sequence number equals the next expected id (here chunk 0 on a fresh session,
where `chunk_id - prev_written_chunk_id = 0 - (-1) = 1`) is NOT appended to the
destination file: the write condition at uploads.rs line 358 is
`chunk_id - prev_written_chunk_id != 1`, inverted relative to the comment above
it, so the handler returns OK, leaves the chunk in the pending buffer, writes
nothing, and does not advance the expected id. -/
theorem upload_chunk_api_skips_next_expected
    (c : List Nat) (hc : c.length = ENCRYPTED_CHUNK_SIZE) :
    (UploadsApi.upload_chunk_api (UploadsApi.newUpload 0 (2 * CHUNK_DATA_SIZE)) 0 c).1 =
      UploadsApi.UploadChunkResponse.ok ∧
    (UploadsApi.upload_chunk_api (UploadsApi.newUpload 0 (2 * CHUNK_DATA_SIZE)) 0 c).2 =
      { UploadsApi.newUpload 0 (2 * CHUNK_DATA_SIZE) with buffered_chunks := [(0, c)] } := by
  have hc2 : c.length = 2097196 := by
    rw [hc]
    norm_num [ENCRYPTED_CHUNK_SIZE, CHUNK_DATA_SIZE, ENCRYPTED_CHUNK_EXTRA_DATA_SIZE,
      CHUNK_ID_BYTE_SIZE, NONCE_BYTE_SIZE, POLY1305_TAG_BYTE_SIZE]
  constructor <;>
  · norm_num [UploadsApi.upload_chunk_api, UploadsApi.drainLoop, UploadsApi.newUpload,
      btreeContains, btreeInsert, MAX_UPLOAD_CONCURRENT_CHUNKS,
      expected_enc_chunk_size, calc_raw_chunk_size, hc2, min_def,
      ENCRYPTED_CHUNK_SIZE, CHUNK_DATA_SIZE, ENCRYPTED_CHUNK_EXTRA_DATA_SIZE,
      CHUNK_ID_BYTE_SIZE, NONCE_BYTE_SIZE, POLY1305_TAG_BYTE_SIZE]

theorem upload_chunk_api_skips_next_expected_witness :
    fullChunk.length = ENCRYPTED_CHUNK_SIZE ∧
    (UploadsApi.upload_chunk_api (UploadsApi.newUpload 0 (2 * CHUNK_DATA_SIZE)) 0
        fullChunk).2 =
      { UploadsApi.newUpload 0 (2 * CHUNK_DATA_SIZE) with
          buffered_chunks := [(0, fullChunk)] } :=
  ⟨fullChunk_length, (upload_chunk_api_skips_next_expected fullChunk fullChunk_length).2⟩

/-- The session state after chunk 0 of a 4 MiB (two-full-chunk) upload has been
written: 2097152 raw bytes on disk, previous written chunk id 0, empty buffer. -/
def afterChunk0 (c : List Nat) : ActiveUpload :=
  { user_id := 0, file_size := 4194304, written_bytes := 2097152,
    prev_written_chunk_id := 0, buffered_chunks := [],
    file := ENCRYPTED_FILE_MAGIC_NUMBER ++ c }

/-- Evaluation of the two-call scenario behind C5 on the utils/upload_utils.rs
drain: writing chunk 0 of a two-full-chunk upload and then resubmitting the
same chunk.  The resubmission is not rejected (`Ok` is returned), the stale
chunk is inserted into the pending buffer, and neither `written_bytes` nor the
file contents change. -/
theorem resubmit_written_chunk_eval (c : List Nat) (hc : c.length = ENCRYPTED_CHUNK_SIZE) :
    UploadUtils.try_write_chunk (UploadUtils.newUpload 0 4194304) 0 c =
      (none, afterChunk0 c) ∧
    UploadUtils.try_write_chunk (afterChunk0 c) 0 c =
      (none, { afterChunk0 c with buffered_chunks := [(0, c)] }) := by
  have hc2 : c.length = 2097196 := by rw [hc]; decide
  constructor
  · have hsz : ((c.length : Nat) : Int) = expected_enc_chunk_size 4194304 0 := by
      rw [hc2]; decide
    have hloop : UploadUtils.writeLoop 4194304 [(0, c)] 0 (-1)
        ENCRYPTED_FILE_MAGIC_NUMBER [] =
        (none, 0 + calc_raw_chunk_size c.length, 0,
          ENCRYPTED_FILE_MAGIC_NUMBER ++ c, [] ++ [0]) := by
      rw [writeLoop_write 4194304 0 c [] 0 (-1) ENCRYPTED_FILE_MAGIC_NUMBER [] hsz
        (by decide)]
      exact writeLoop_nil 4194304 (0 + calc_raw_chunk_size c.length) 0
        (ENCRYPTED_FILE_MAGIC_NUMBER ++ c) ([] ++ [0])
    rw [try_write_chunk_eq]
    rw [write_buffered_chunks_ok
      ({ (UploadUtils.newUpload 0 4194304) with
          buffered_chunks := btreeInsert 0 c (UploadUtils.newUpload 0 4194304).buffered_chunks })
      (0 + calc_raw_chunk_size c.length) 0 (ENCRYPTED_FILE_MAGIC_NUMBER ++ c)
      ([] ++ [0]) hloop]
    simp [UploadUtils.newUpload, afterChunk0, removeWritten, btreeRemove, btreeInsert,
      calc_raw_chunk_size, hc2, ENCRYPTED_CHUNK_EXTRA_DATA_SIZE, CHUNK_ID_BYTE_SIZE,
      NONCE_BYTE_SIZE, POLY1305_TAG_BYTE_SIZE]
  · have hsz2 : ((c.length : Nat) : Int) = expected_enc_chunk_size 4194304 2097152 := by
      rw [hc2]; decide
    have hloop2 : UploadUtils.writeLoop 4194304 [(0, c)] 2097152 0
        (ENCRYPTED_FILE_MAGIC_NUMBER ++ c) [] =
        (none, 2097152, 0, ENCRYPTED_FILE_MAGIC_NUMBER ++ c, []) :=
      writeLoop_break 4194304 0 c [] 2097152 0 (ENCRYPTED_FILE_MAGIC_NUMBER ++ c) []
        hsz2 (by decide)
    rw [try_write_chunk_eq]
    rw [write_buffered_chunks_ok
      ({ (afterChunk0 c) with
          buffered_chunks := btreeInsert 0 c (afterChunk0 c).buffered_chunks })
      2097152 0 (ENCRYPTED_FILE_MAGIC_NUMBER ++ c) [] hloop2]
    simp [afterChunk0, removeWritten, btreeInsert]

/-- C5 counterexample: after chunk 0 of a 4 MiB upload has been written
(`prev_written_chunk_id = 0`), resubmitting chunk 0 — a chunk id ≤ the last
written id — is NOT rejected: `try_write_chunk` returns `Ok` (no error value of
any kind), buffering the stale chunk.  `written_bytes` and the file contents
are indeed unchanged, but no `StaleChunk` rejection exists in the code. -/
theorem stale_chunk_resubmission_accepted :
    UploadUtils.try_write_chunk (UploadUtils.newUpload 0 4194304) 0 fullChunk =
      (none, afterChunk0 fullChunk) ∧
    UploadUtils.try_write_chunk (afterChunk0 fullChunk) 0 fullChunk =
      (none, { afterChunk0 fullChunk with buffered_chunks := [(0, fullChunk)] }) :=
  resubmit_written_chunk_eval fullChunk fullChunk_length

/-- C5 amended: on a session with an empty pending buffer, a chunk whose id is
≤ the last written chunk id is never rejected as stale — the code has no such
check.  The stale chunk is inserted into the pending buffer and the call
changes neither `written_bytes` nor the destination file contents; the call
returns `Ok` exactly when the stale payload's length equals the encrypted size
expected at the next write position, and otherwise fails with the generic
size-mismatch error (still not a stale rejection). -/
theorem stale_chunk_accepted_without_mutation
    (u : ActiveUpload) (cid : Int) (data : List Nat)
    (hbuf : u.buffered_chunks = []) (hstale : cid ≤ u.prev_written_chunk_id) :
    (UploadUtils.try_write_chunk u cid data).2 =
      { u with buffered_chunks := [(cid, data)] } ∧
    (UploadUtils.try_write_chunk u cid data).1 =
      (if (data.length : Int) = expected_enc_chunk_size u.file_size u.written_bytes
        then none
        else some (ChunkWriteError.sizeMismatch
          (expected_enc_chunk_size u.file_size u.written_bytes) data.length)) := by
  have hne : cid - u.prev_written_chunk_id ≠ 1 := by omega
  rw [try_write_chunk_eq, hbuf, btreeInsert_nil]
  by_cases hsz : ((data.length : Nat) : Int) =
      expected_enc_chunk_size u.file_size u.written_bytes
  · rw [write_buffered_chunks_ok ({ u with buffered_chunks := [(cid, data)] })
      u.written_bytes u.prev_written_chunk_id u.file []
      (writeLoop_break u.file_size cid data [] u.written_bytes
        u.prev_written_chunk_id u.file [] hsz hne)]
    exact ⟨rfl, by simp [hsz]⟩
  · rw [write_buffered_chunks_err ({ u with buffered_chunks := [(cid, data)] })
      (ChunkWriteError.sizeMismatch
        (expected_enc_chunk_size u.file_size u.written_bytes) data.length)
      u.written_bytes u.prev_written_chunk_id u.file []
      (writeLoop_mismatch u.file_size cid data [] u.written_bytes
        u.prev_written_chunk_id u.file [] hsz)]
    exact ⟨rfl, by simp [hsz]⟩

theorem stale_chunk_accepted_without_mutation_witness :
    ([] : List (Int × List Nat)) = [] ∧ (0 : Int) ≤ 0 ∧
    ((UploadUtils.try_write_chunk
        { user_id := 0, file_size := 5, written_bytes := 5,
          prev_written_chunk_id := 0, buffered_chunks := [], file := [1, 2, 3] }
        0 [9]).2 =
      { user_id := 0, file_size := 5, written_bytes := 5,
        prev_written_chunk_id := 0, buffered_chunks := [(0, [9])], file := [1, 2, 3] } ∧
    (UploadUtils.try_write_chunk
        { user_id := 0, file_size := 5, written_bytes := 5,
          prev_written_chunk_id := 0, buffered_chunks := [], file := [1, 2, 3] }
        0 [9]).1 =
      (if ((([9] : List Nat).length : Nat) : Int) = expected_enc_chunk_size 5 5
        then none
        else some (ChunkWriteError.sizeMismatch (expected_enc_chunk_size 5 5) 1))) :=
  ⟨rfl, by decide,
    stale_chunk_accepted_without_mutation
      { user_id := 0, file_size := 5, written_bytes := 5,
        prev_written_chunk_id := 0, buffered_chunks := [], file := [1, 2, 3] }
      0 [9] rfl (by decide)⟩

/-! ### C4 — order independence of chunk delivery

Evaluation of two three-chunk uploads on the utils drain, chunk by chunk.
A 4194305-byte upload (two full chunks and a 1-raw-byte final chunk, the
chunk count being 3) delivered as `[2,0,1]` wedges: the drain validates every
buffered chunk against the size expected at the *next write position* before
checking its id, so the short final chunk delivered early fails the size check.
A 6291456-byte upload (three full chunks) is order independent. -/

theorem cex_call_L2 (c0 c2 : List Nat) (h0 : c0.length = 2097196)
    (h2 : c2.length = 45) :
    UploadUtils.try_write_chunk
      { user_id := 0, file_size := 4194305, written_bytes := 0,
        prev_written_chunk_id := -1, buffered_chunks := [(2, c2)],
        file := ENCRYPTED_FILE_MAGIC_NUMBER } 0 c0 =
      (some (ChunkWriteError.sizeMismatch 2097196 45),
        { user_id := 0, file_size := 4194305, written_bytes := 2097152,
          prev_written_chunk_id := 0, buffered_chunks := [(0, c0), (2, c2)],
          file := ENCRYPTED_FILE_MAGIC_NUMBER ++ c0 }) := by
  have hszA : ((c0.length : Nat) : Int) = expected_enc_chunk_size 4194305 0 := by
    rw [h0]; decide
  have hraw : 0 + calc_raw_chunk_size c0.length = 2097152 := by rw [h0]; decide
  have hszB : ((c2.length : Nat) : Int) ≠ expected_enc_chunk_size 4194305 2097152 := by
    rw [h2]; decide
  have hloop : UploadUtils.writeLoop 4194305 [(0, c0), (2, c2)] 0 (-1)
      ENCRYPTED_FILE_MAGIC_NUMBER [] =
      (some (ChunkWriteError.sizeMismatch 2097196 45), 2097152, 0,
        ENCRYPTED_FILE_MAGIC_NUMBER ++ c0, [0]) := by
    rw [writeLoop_write 4194305 0 c0 [(2, c2)] 0 (-1) ENCRYPTED_FILE_MAGIC_NUMBER []
      hszA (by decide)]
    rw [hraw, List.nil_append]
    rw [writeLoop_mismatch 4194305 2 c2 [] 2097152 0
      (ENCRYPTED_FILE_MAGIC_NUMBER ++ c0) [0] hszB]
    rw [h2]
    norm_num [expected_enc_chunk_size, min_def, ENCRYPTED_CHUNK_SIZE, CHUNK_DATA_SIZE,
      ENCRYPTED_CHUNK_EXTRA_DATA_SIZE, CHUNK_ID_BYTE_SIZE, NONCE_BYTE_SIZE,
      POLY1305_TAG_BYTE_SIZE]
  rw [try_write_chunk_eq]
  rw [write_buffered_chunks_err
    ({ ({ user_id := 0, file_size := 4194305, written_bytes := 0,
          prev_written_chunk_id := -1, buffered_chunks := [(2, c2)],
          file := ENCRYPTED_FILE_MAGIC_NUMBER } : ActiveUpload) with
        buffered_chunks := btreeInsert 0 c0 [(2, c2)] })
    (ChunkWriteError.sizeMismatch 2097196 45) 2097152 0
    (ENCRYPTED_FILE_MAGIC_NUMBER ++ c0) [0] hloop]
  norm_num [btreeInsert]

theorem cex_call_L3 (c0 c1 c2 : List Nat) (h0 : c0.length = 2097196) :
    UploadUtils.try_write_chunk
      { user_id := 0, file_size := 4194305, written_bytes := 2097152,
        prev_written_chunk_id := 0, buffered_chunks := [(0, c0), (2, c2)],
        file := ENCRYPTED_FILE_MAGIC_NUMBER ++ c0 } 1 c1 =
      (none,
        { user_id := 0, file_size := 4194305, written_bytes := 2097152,
          prev_written_chunk_id := 0, buffered_chunks := [(0, c0), (1, c1), (2, c2)],
          file := ENCRYPTED_FILE_MAGIC_NUMBER ++ c0 }) := by
  have hszA : ((c0.length : Nat) : Int) = expected_enc_chunk_size 4194305 2097152 := by
    rw [h0]; decide
  have hloop : UploadUtils.writeLoop 4194305 [(0, c0), (1, c1), (2, c2)] 2097152 0
      (ENCRYPTED_FILE_MAGIC_NUMBER ++ c0) [] =
      (none, 2097152, 0, ENCRYPTED_FILE_MAGIC_NUMBER ++ c0, []) :=
    writeLoop_break 4194305 0 c0 [(1, c1), (2, c2)] 2097152 0
      (ENCRYPTED_FILE_MAGIC_NUMBER ++ c0) [] hszA (by decide)
  rw [try_write_chunk_eq]
  rw [write_buffered_chunks_ok
    ({ ({ user_id := 0, file_size := 4194305, written_bytes := 2097152,
          prev_written_chunk_id := 0, buffered_chunks := [(0, c0), (2, c2)],
          file := ENCRYPTED_FILE_MAGIC_NUMBER ++ c0 } : ActiveUpload) with
        buffered_chunks := btreeInsert 1 c1 [(0, c0), (2, c2)] })
    2097152 0 (ENCRYPTED_FILE_MAGIC_NUMBER ++ c0) [] hloop]
  norm_num [btreeInsert, removeWritten]

theorem amended_call_N2 (c0 c2 : List Nat) (h0 : c0.length = 2097196)
    (h2c : c2.length = 2097196) :
    UploadUtils.try_write_chunk
      { user_id := 0, file_size := 6291456, written_bytes := 0,
        prev_written_chunk_id := -1, buffered_chunks := [(2, c2)],
        file := ENCRYPTED_FILE_MAGIC_NUMBER } 0 c0 =
      (none,
        { user_id := 0, file_size := 6291456, written_bytes := 2097152,
          prev_written_chunk_id := 0, buffered_chunks := [(2, c2)],
          file := ENCRYPTED_FILE_MAGIC_NUMBER ++ c0 }) := by
  have hszA : ((c0.length : Nat) : Int) = expected_enc_chunk_size 6291456 0 := by
    rw [h0]; decide
  have hraw : 0 + calc_raw_chunk_size c0.length = 2097152 := by rw [h0]; decide
  have hszB : ((c2.length : Nat) : Int) = expected_enc_chunk_size 6291456 2097152 := by
    rw [h2c]; decide
  have hloop : UploadUtils.writeLoop 6291456 [(0, c0), (2, c2)] 0 (-1)
      ENCRYPTED_FILE_MAGIC_NUMBER [] =
      (none, 2097152, 0, ENCRYPTED_FILE_MAGIC_NUMBER ++ c0, [0]) := by
    rw [writeLoop_write 6291456 0 c0 [(2, c2)] 0 (-1) ENCRYPTED_FILE_MAGIC_NUMBER []
      hszA (by decide)]
    rw [hraw, List.nil_append]
    exact writeLoop_break 6291456 2 c2 [] 2097152 0
      (ENCRYPTED_FILE_MAGIC_NUMBER ++ c0) [0] hszB (by decide)
  rw [try_write_chunk_eq]
  rw [write_buffered_chunks_ok
    ({ ({ user_id := 0, file_size := 6291456, written_bytes := 0,
          prev_written_chunk_id := -1, buffered_chunks := [(2, c2)],
          file := ENCRYPTED_FILE_MAGIC_NUMBER } : ActiveUpload) with
        buffered_chunks := btreeInsert 0 c0 [(2, c2)] })
    2097152 0 (ENCRYPTED_FILE_MAGIC_NUMBER ++ c0) [0] hloop]
  norm_num [btreeInsert, removeWritten, btreeRemove]

theorem amended_call_N3 (c0 c1 c2 : List Nat) (h1 : c1.length = 2097196)
    (h2c : c2.length = 2097196) :
    UploadUtils.try_write_chunk
      { user_id := 0, file_size := 6291456, written_bytes := 2097152,
        prev_written_chunk_id := 0, buffered_chunks := [(2, c2)],
        file := ENCRYPTED_FILE_MAGIC_NUMBER ++ c0 } 1 c1 =
      (none,
        { user_id := 0, file_size := 6291456, written_bytes := 6291456,
          prev_written_chunk_id := 2, buffered_chunks := [],
          file := ENCRYPTED_FILE_MAGIC_NUMBER ++ c0 ++ c1 ++ c2 }) := by
  have hszA : ((c1.length : Nat) : Int) = expected_enc_chunk_size 6291456 2097152 := by
    rw [h1]; decide
  have hraw1 : 2097152 + calc_raw_chunk_size c1.length = 4194304 := by rw [h1]; decide
  have hszB : ((c2.length : Nat) : Int) = expected_enc_chunk_size 6291456 4194304 := by
    rw [h2c]; decide
  have hraw2 : 4194304 + calc_raw_chunk_size c2.length = 6291456 := by rw [h2c]; decide
  have hloop : UploadUtils.writeLoop 6291456 [(1, c1), (2, c2)] 2097152 0
      (ENCRYPTED_FILE_MAGIC_NUMBER ++ c0) [] =
      (none, 6291456, 2, ENCRYPTED_FILE_MAGIC_NUMBER ++ c0 ++ c1 ++ c2, [1, 2]) := by
    rw [writeLoop_write 6291456 1 c1 [(2, c2)] 2097152 0
      (ENCRYPTED_FILE_MAGIC_NUMBER ++ c0) [] hszA (by decide)]
    rw [hraw1, List.nil_append]
    rw [writeLoop_write 6291456 2 c2 [] 4194304 1
      (ENCRYPTED_FILE_MAGIC_NUMBER ++ c0 ++ c1) [1] hszB (by decide)]
    rw [hraw2]
    rw [writeLoop_nil]
    norm_num
  rw [try_write_chunk_eq]
  rw [write_buffered_chunks_ok
    ({ ({ user_id := 0, file_size := 6291456, written_bytes := 2097152,
          prev_written_chunk_id := 0, buffered_chunks := [(2, c2)],
          file := ENCRYPTED_FILE_MAGIC_NUMBER ++ c0 } : ActiveUpload) with
        buffered_chunks := btreeInsert 1 c1 [(2, c2)] })
    6291456 2 (ENCRYPTED_FILE_MAGIC_NUMBER ++ c0 ++ c1 ++ c2) [1, 2] hloop]
  norm_num [btreeInsert, removeWritten, btreeRemove]

/-- Delivering the chunks of a 4194305-byte upload in arrival order `[2,0,1]`:
the early short chunk fails the size check twice, chunk 0 is written once, and
the session ends wedged with 2097152 bytes written and all three chunks stuck
in the pending buffer. -/
theorem deliver_short_out_of_order (c0 c1 c2 : List Nat)
    (h0 : c0.length = 2097196) (_h1 : c1.length = 2097196) (h2 : c2.length = 45) :
    UploadUtils.deliver (UploadUtils.newUpload 0 4194305)
        [(2, c2), (0, c0), (1, c1)] =
      { user_id := 0, file_size := 4194305, written_bytes := 2097152,
        prev_written_chunk_id := 0, buffered_chunks := [(0, c0), (1, c1), (2, c2)],
        file := ENCRYPTED_FILE_MAGIC_NUMBER ++ c0 } := by
  have hszX : ((c2.length : Nat) : Int) ≠ expected_enc_chunk_size 4194305 0 := by
    rw [h2]; decide
  rw [deliver_cons]
  rw [try_write_single_mismatch (UploadUtils.newUpload 0 4194305) 2 c2 rfl hszX]
  dsimp only [UploadUtils.newUpload]
  rw [deliver_cons]
  rw [cex_call_L2 c0 c2 h0 h2]
  dsimp only
  rw [deliver_cons]
  rw [cex_call_L3 c0 c1 c2 h0]
  dsimp only
  rw [deliver_nil]

/-- Delivering the chunks of a 4194305-byte upload in order `[0,1,2]`: each
chunk is written as it arrives and the upload completes with all 4194305 raw
bytes on disk. -/
theorem deliver_short_in_order (c0 c1 c2 : List Nat)
    (h0 : c0.length = 2097196) (h1 : c1.length = 2097196) (h2 : c2.length = 45) :
    UploadUtils.deliver (UploadUtils.newUpload 0 4194305)
        [(0, c0), (1, c1), (2, c2)] =
      { user_id := 0, file_size := 4194305, written_bytes := 4194305,
        prev_written_chunk_id := 2, buffered_chunks := [],
        file := ENCRYPTED_FILE_MAGIC_NUMBER ++ c0 ++ c1 ++ c2 } := by
  have hsz0 : ((c0.length : Nat) : Int) = expected_enc_chunk_size 4194305 0 := by
    rw [h0]; decide
  have hraw0 : 0 + calc_raw_chunk_size c0.length = 2097152 := by rw [h0]; decide
  have hsz1 : ((c1.length : Nat) : Int) = expected_enc_chunk_size 4194305 2097152 := by
    rw [h1]; decide
  have hraw1 : 2097152 + calc_raw_chunk_size c1.length = 4194304 := by rw [h1]; decide
  have hsz2 : ((c2.length : Nat) : Int) = expected_enc_chunk_size 4194305 4194304 := by
    rw [h2]; decide
  have hraw2 : 4194304 + calc_raw_chunk_size c2.length = 4194305 := by rw [h2]; decide
  rw [deliver_cons]
  rw [try_write_single_write (UploadUtils.newUpload 0 4194305) 0 c0 rfl hsz0 (by decide)]
  dsimp only [UploadUtils.newUpload]
  rw [hraw0]
  rw [deliver_cons]
  rw [try_write_single_write
    ({ user_id := 0, file_size := 4194305, written_bytes := 2097152,
       prev_written_chunk_id := 0, buffered_chunks := [],
       file := ENCRYPTED_FILE_MAGIC_NUMBER ++ c0 } : ActiveUpload) 1 c1 rfl hsz1
    (by norm_num)]
  dsimp only
  rw [hraw1]
  rw [deliver_cons]
  rw [try_write_single_write
    ({ user_id := 0, file_size := 4194305, written_bytes := 4194304,
       prev_written_chunk_id := 1, buffered_chunks := [],
       file := ENCRYPTED_FILE_MAGIC_NUMBER ++ c0 ++ c1 } : ActiveUpload) 2 c2 rfl hsz2
    (by norm_num)]
  dsimp only
  rw [hraw2]
  rw [deliver_nil]

/-- Delivering the chunks of a 6291456-byte (three-full-chunk) upload in
arrival order `[2,0,1]`: chunk 2 buffers, chunk 0 is written, and chunk 1
unlocks the drain of both remaining chunks. -/
theorem deliver_full_out_of_order (c0 c1 c2 : List Nat)
    (h0 : c0.length = 2097196) (h1 : c1.length = 2097196) (h2c : c2.length = 2097196) :
    UploadUtils.deliver (UploadUtils.newUpload 0 6291456)
        [(2, c2), (0, c0), (1, c1)] =
      { user_id := 0, file_size := 6291456, written_bytes := 6291456,
        prev_written_chunk_id := 2, buffered_chunks := [],
        file := ENCRYPTED_FILE_MAGIC_NUMBER ++ c0 ++ c1 ++ c2 } := by
  have hszX : ((c2.length : Nat) : Int) = expected_enc_chunk_size 6291456 0 := by
    rw [h2c]; decide
  rw [deliver_cons]
  rw [try_write_single_break (UploadUtils.newUpload 0 6291456) 2 c2 rfl hszX (by decide)]
  dsimp only [UploadUtils.newUpload]
  rw [deliver_cons]
  rw [amended_call_N2 c0 c2 h0 h2c]
  dsimp only
  rw [deliver_cons]
  rw [amended_call_N3 c0 c1 c2 h1 h2c]
  dsimp only
  rw [deliver_nil]

/-- Delivering the chunks of a 6291456-byte upload in order `[0,1,2]`. -/
theorem deliver_full_in_order (c0 c1 c2 : List Nat)
    (h0 : c0.length = 2097196) (h1 : c1.length = 2097196) (h2c : c2.length = 2097196) :
    UploadUtils.deliver (UploadUtils.newUpload 0 6291456)
        [(0, c0), (1, c1), (2, c2)] =
      { user_id := 0, file_size := 6291456, written_bytes := 6291456,
        prev_written_chunk_id := 2, buffered_chunks := [],
        file := ENCRYPTED_FILE_MAGIC_NUMBER ++ c0 ++ c1 ++ c2 } := by
  have hsz0 : ((c0.length : Nat) : Int) = expected_enc_chunk_size 6291456 0 := by
    rw [h0]; decide
  have hraw0 : 0 + calc_raw_chunk_size c0.length = 2097152 := by rw [h0]; decide
  have hsz1 : ((c1.length : Nat) : Int) = expected_enc_chunk_size 6291456 2097152 := by
    rw [h1]; decide
  have hraw1 : 2097152 + calc_raw_chunk_size c1.length = 4194304 := by rw [h1]; decide
  have hsz2 : ((c2.length : Nat) : Int) = expected_enc_chunk_size 6291456 4194304 := by
    rw [h2c]; decide
  have hraw2 : 4194304 + calc_raw_chunk_size c2.length = 6291456 := by rw [h2c]; decide
  rw [deliver_cons]
  rw [try_write_single_write (UploadUtils.newUpload 0 6291456) 0 c0 rfl hsz0 (by decide)]
  dsimp only [UploadUtils.newUpload]
  rw [hraw0]
  rw [deliver_cons]
  rw [try_write_single_write
    ({ user_id := 0, file_size := 6291456, written_bytes := 2097152,
       prev_written_chunk_id := 0, buffered_chunks := [],
       file := ENCRYPTED_FILE_MAGIC_NUMBER ++ c0 } : ActiveUpload) 1 c1 rfl hsz1
    (by norm_num)]
  dsimp only
  rw [hraw1]
  rw [deliver_cons]
  rw [try_write_single_write
    ({ user_id := 0, file_size := 6291456, written_bytes := 4194304,
       prev_written_chunk_id := 1, buffered_chunks := [],
       file := ENCRYPTED_FILE_MAGIC_NUMBER ++ c0 ++ c1 } : ActiveUpload) 2 c2 rfl hsz2
    (by norm_num)]
  dsimp only
  rw [hraw2]
  rw [deliver_nil]

/-- C4 counterexample: a 3-chunk upload of 4194305 bytes (two full chunks and a
final 1-raw-byte chunk, each submitted with the correct payload size for its
position) delivered in arrival order `[2,0,1]` leaves `written_bytes = 2097152`
and a wedged session, while `[0,1,2]` completes with `written_bytes = 4194305`:
the two orders do not produce the same file contents or `written_bytes`. -/
theorem order_dependence_short_final_chunk :
    (UploadUtils.deliver (UploadUtils.newUpload 0 4194305)
        [(2, shortChunk), (0, fullChunk), (1, fullChunk)]).written_bytes = 2097152 ∧
    (UploadUtils.deliver (UploadUtils.newUpload 0 4194305)
        [(0, fullChunk), (1, fullChunk), (2, shortChunk)]).written_bytes = 4194305 ∧
    (UploadUtils.deliver (UploadUtils.newUpload 0 4194305)
        [(2, shortChunk), (0, fullChunk), (1, fullChunk)]).written_bytes ≠
      (UploadUtils.deliver (UploadUtils.newUpload 0 4194305)
        [(0, fullChunk), (1, fullChunk), (2, shortChunk)]).written_bytes := by
  have hf : fullChunk.length = 2097196 := by rw [fullChunk_length]; decide
  have hs : shortChunk.length = 45 := shortChunk_length
  refine ⟨?_, ?_, ?_⟩
  · rw [deliver_short_out_of_order fullChunk fullChunk shortChunk hf hf hs]
  · rw [deliver_short_in_order fullChunk fullChunk shortChunk hf hf hs]
  · rw [deliver_short_out_of_order fullChunk fullChunk shortChunk hf hf hs,
      deliver_short_in_order fullChunk fullChunk shortChunk hf hf hs]
    decide

/-- C4 amended: for a 3-chunk upload whose declared size is an exact multiple
of `CHUNK_DATA_SIZE` (all three chunks full), submitting the chunks in arrival
order `[2,0,1]` produces exactly the same final session state — byte-identical
destination file contents and the same `written_bytes` — as submitting them in
order `[0,1,2]`.  When the final chunk is short, the `[2,0,1]` order instead
fails the size validation (which checks each buffered chunk against the size
expected at the next write position before checking its id) and the upload
cannot complete. -/
theorem order_independence_full_chunks (c0 c1 c2 : List Nat)
    (h0 : c0.length = ENCRYPTED_CHUNK_SIZE) (h1 : c1.length = ENCRYPTED_CHUNK_SIZE)
    (h2 : c2.length = ENCRYPTED_CHUNK_SIZE) :
    UploadUtils.deliver (UploadUtils.newUpload 0 6291456)
        [(2, c2), (0, c0), (1, c1)] =
      UploadUtils.deliver (UploadUtils.newUpload 0 6291456)
        [(0, c0), (1, c1), (2, c2)] := by
  have h0n : c0.length = 2097196 := by rw [h0]; decide
  have h1n : c1.length = 2097196 := by rw [h1]; decide
  have h2n : c2.length = 2097196 := by rw [h2]; decide
  rw [deliver_full_out_of_order c0 c1 c2 h0n h1n h2n,
    deliver_full_in_order c0 c1 c2 h0n h1n h2n]

theorem order_independence_full_chunks_witness :
    fullChunk.length = ENCRYPTED_CHUNK_SIZE ∧
    UploadUtils.deliver (UploadUtils.newUpload 0 6291456)
        [(2, fullChunk), (0, fullChunk), (1, fullChunk)] =
      UploadUtils.deliver (UploadUtils.newUpload 0 6291456)
        [(0, fullChunk), (1, fullChunk), (2, fullChunk)] :=
  ⟨fullChunk_length,
    order_independence_full_chunks fullChunk fullChunk fullChunk
      fullChunk_length fullChunk_length fullChunk_length⟩

/-! ## Claims about the download read path (C3) -/

/-- C3 (code bug): the read offset is `chunk_id * 2097196 + 4` as the claim
states, but the source computes `read_size = file_size - read_offset` before
validating the offset.  For chunk 1 of a 4-byte (bare header) container the
offset 2097200 exceeds the file size: with overflow checks enabled the `u64`
subtraction panics before the validation, instead of the typed out-of-range
error; in release builds the subtraction wraps and the typed error is
returned.  In range, the stream holds exactly
`min(ENCRYPTED_CHUNK_SIZE, file_size - read_offset)` bytes from the offset. -/
theorem read_chunk_out_of_range_underflow :
    DownloadUtils.try_read_chunk_as_stream true 4 1 =
      DownloadUtils.ReadChunkOutcome.panicOnUnderflow ∧
    DownloadUtils.try_read_chunk_as_stream false 4 1 =
      DownloadUtils.ReadChunkOutcome.chunkOutOfRange ∧
    DownloadUtils.try_read_chunk_as_stream false 2097300 1 =
      DownloadUtils.ReadChunkOutcome.stream 2097200 100 := by
  refine ⟨by decide, by decide, by decide⟩

end Treasury
